import Mathlib

/-
Verification of the vitals acquisition and derivation pipeline of the
patient-monitoring dashboard (frontend/src/services/ThingSpeakService.js).

Modelling conventions:
- JS numbers are modelled as exact rationals; the value NaN is modelled by
  `Option ℚ` with `none` standing for NaN (comparisons against NaN are
  false, which the helpers `jsGtB`/`jsLtB` encode).  `Math.sqrt` forces the
  ECG-variability score into `ℝ` (`Real.sqrt`); everything around it stays
  rational/integer and computable.
- `parseFloat`/`parseInt` are implemented over `String` with ECMAScript
  longest-numeric-prefix semantics for decimal literals.  The `Infinity`
  literal and the hexadecimal `0x` prefix of radix-free `parseInt` are
  outside the model (no feed field in scope uses them).
- The result of `JSON.parse(field8)` is modelled directly:
  `none` = the field is absent/falsy, `Except.error ()` = malformed JSON
  (the parse throws), `Except.ok l` = a JSON array of numbers.
- `Math.random()` values are passed in explicitly (`r1 r2 : ℚ`, one pair
  per record), so the randomized baseline branch is deterministic in the
  supplied random source.
- `new Date(created_at)` is modelled as an opaque integer timestamp; the
  `toISOString` rendering of a CSV cell is kept symbolic (`Cell.iso`),
  since JS date-string parsing/formatting carries no algorithmic content
  relevant to the claims.
-/

/-! ## JS numeric coercion: parseFloat / parseInt -/

/-- Drops the leading whitespace that `parseFloat`/`parseInt` skip. -/
def skipWs (cs : List Char) : List Char :=
  cs.dropWhile (fun c => c == ' ' || c == '\t' || c == '\n' || c == '\r')

/-- Consumes an optional sign; returns (isNegative, rest). -/
def takeSign : List Char → Bool × List Char
  | '-' :: r => (true, r)
  | '+' :: r => (false, r)
  | cs => (false, cs)

/-- Consumes a maximal run of decimal digits; returns (digit values, rest). -/
def takeDigits : List Char → List ℕ × List Char
  | [] => ([], [])
  | c :: cs =>
    if c.isDigit then
      let p := takeDigits cs
      ((c.toNat - 48) :: p.1, p.2)
    else ([], c :: cs)

/-- Value of a digit run read left to right. -/
def natOfDigits (ds : List ℕ) : ℕ := ds.foldl (fun a d => 10 * a + d) 0

/-- Exponent part of a decimal literal (`e`/`E`, optional sign, digits);
0 when absent or when no digits follow, as in `parseFloat` prefix parsing. -/
def expPart (cs : List Char) : ℤ :=
  match cs with
  | c :: r =>
    if c == 'e' || c == 'E' then
      let sg := takeSign r
      let dp := takeDigits sg.2
      if dp.1 = [] then 0
      else if sg.1 then -(natOfDigits dp.1 : ℤ) else (natOfDigits dp.1 : ℤ)
    else 0
  | [] => 0

/-- Character-level scan of a decimal literal prefix: sign, integer digits,
fraction digits, exponent, and whether any digit was found. -/
structure NumScan where
  neg : Bool
  ip : List ℕ
  fp : List ℕ
  ex : ℤ
  ok : Bool
  deriving DecidableEq

/-- Runs the prefix scan of `parseFloat` over a string. -/
def scanNum (s : String) : NumScan :=
  let cs := skipWs s.toList
  let sg := takeSign cs
  let ip := takeDigits sg.2
  let fp := match ip.2 with
    | '.' :: r => takeDigits r
    | _ => ([], ip.2)
  { neg := sg.1, ip := ip.1, fp := fp.1, ex := expPart fp.2,
    ok := !(ip.1.isEmpty && fp.1.isEmpty) }

/-- ECMAScript `parseFloat` on decimal literals: longest numeric prefix;
`none` models NaN. -/
def jsParseFloat (s : String) : Option ℚ :=
  let n := scanNum s
  if n.ok then
    let mag : ℚ :=
      ((natOfDigits n.ip : ℚ) + (natOfDigits n.fp : ℚ) / (10 : ℚ) ^ n.fp.length)
        * (10 : ℚ) ^ n.ex
    some (if n.neg then -mag else mag)
  else none

/-- ECMAScript `parseInt` with no radix argument, decimal case:
maximal digit prefix after optional sign; `none` models NaN. -/
def jsParseInt (s : String) : Option ℤ :=
  let cs := skipWs s.toList
  let sg := takeSign cs
  let dp := takeDigits sg.2
  if dp.1 = [] then none
  else some (if sg.1 then -(natOfDigits dp.1 : ℤ) else (natOfDigits dp.1 : ℤ))

/-! ## JS arithmetic helpers -/

/-- JS `Math.round` on a rational: round half toward positive infinity. -/
def jsRoundQ (q : ℚ) : ℤ := ⌊q + 1 / 2⌋

/-- JS `Math.round` on a real: round half toward positive infinity. -/
noncomputable def jsRoundR (x : ℝ) : ℤ := ⌊x + 1 / 2⌋

/-- JS `Number.prototype.toFixed(1)`: the value rendered with one decimal
digit (ties pick the larger candidate). -/
def jsToFixed1 (q : ℚ) : ℚ := (⌊q * 10 + 1 / 2⌋ : ℚ) / 10

/-- The source's `clampValue(value, min, max) = Math.max(min, Math.min(max, value))`. -/
def clampValue (value lo hi : ℤ) : ℤ := max lo (min hi value)

/-- Comparison `b < a` where `a` is a JS number that may be NaN:
any comparison against NaN is false. -/
def jsGtB (a : Option ℚ) (b : ℚ) : Bool :=
  match a with
  | some x => decide (b < x)
  | none => false

/-- Comparison `a < b` where `a` is a JS number that may be NaN. -/
def jsLtB (a : Option ℚ) (b : ℚ) : Bool :=
  match a with
  | some x => decide (x < b)
  | none => false

/-! ## ECG variability estimator (calculateEcgVariability) -/

/-- Mean of the samples, `reduce((sum, v) => sum + v, 0) / length`. -/
def listMean (l : List ℚ) : ℚ := l.sum / (l.length : ℚ)

/-- The `squaredDiffs` array: `map(v => Math.pow(v - mean, 2))`. -/
def squaredDiffs (l : List ℚ) : List ℚ := l.map (fun v => (v - listMean l) ^ 2)

/-- The `avgSquaredDiff` value: population variance of the samples. -/
def popVariance (l : List ℚ) : ℚ :=
  (squaredDiffs l).sum / ((squaredDiffs l).length : ℚ)

/-- Source `calculateEcgVariability`: 0 for fewer than 10 samples, else the
population standard deviation normalized by `min(stdDev / 0.5, 1)`. -/
noncomputable def calculateEcgVariability (ecgSamples : List ℚ) : ℝ :=
  if ecgSamples.length < 10 then 0
  else min (Real.sqrt (popVariance ecgSamples) / 0.5) 1

/-! ## Blood pressure estimator (calculateBP) -/

/-- Source `calculateBP`.  `heartRate`/`spo2` are JS numbers that may be NaN
(`none`); `r1`, `r2` are the two `Math.random()` draws consumed by the
degenerate branch (`Math.floor(r * 10) - 5` each).  The JS guard
`!ecgSamples || ecgSamples.length < 10 || !heartRate || isNaN(heartRate)`
is `length < 10 ∨ heartRate = none ∨ heartRate = some 0` (NaN and 0 are the
falsy numbers). -/
noncomputable def calculateBP (ecgSamples : List ℚ) (heartRate spo2 : Option ℚ)
    (r1 r2 : ℚ) : ℤ × ℤ :=
  if ecgSamples.length < 10 ∨ heartRate = none ∨ heartRate = some 0 then
    (120 + (⌊r1 * 10⌋ - 5), 80 + (⌊r2 * 10⌋ - 5))
  else
    let hr : ℚ := heartRate.getD 0
    let ecgVariability := calculateEcgVariability ecgSamples
    let heartRateEffect : ℝ :=
      if hr < 60 then -10 * (1 - (hr : ℝ) / 60)
      else if hr > 100 then 15 * (((hr : ℝ) - 100) / 50)
      else 0
    let spo2Effect : ℝ :=
      match spo2 with
      | some s => if s < 95 then 5 * ((95 - (s : ℝ)) / 5) else 0
      | none => 0
    let ecgEffect : ℝ := ecgVariability * 10
    let ageEffect : ℝ := 0
    let systolic :=
      jsRoundR (120 + heartRateEffect * 0.6 + spo2Effect * 0.2 + ecgEffect * 0.2 + ageEffect)
    let diastolic :=
      jsRoundR (80 + heartRateEffect * 0.4 + spo2Effect * 0.1 + ecgEffect * 0.1 + ageEffect)
    (clampValue systolic 80 200, clampValue diastolic 40 120)

/-! ## Spec-side effect formulas (written from the claim text, for
comparison against the source definitions) -/

/-- Claim formula for the heart-rate effect: 0 on [60,100],
`-10 * (1 - hr/60)` below 60, `15 * (hr-100)/50` above 100. -/
noncomputable def specHrEffect (hr : ℚ) : ℝ :=
  if 60 ≤ hr ∧ hr ≤ 100 then 0
  else if hr < 60 then -10 * (1 - (hr : ℝ) / 60)
  else 15 * (((hr : ℝ) - 100) / 50)

/-- Claim formula for the SpO2 effect: 0 when spo2 is at least 95,
else `5 * (95 - spo2)/5`. -/
noncomputable def specSpo2Effect (s : ℚ) : ℝ :=
  if 95 ≤ s then 0 else 5 * ((95 - (s : ℝ)) / 5)

/-! ## Data model: feed records and locations -/

/-- Outcome of `JSON.parse` on the `field8` string: the field is
absent/falsy, the JSON is malformed (the parse throws), or it is an array
of ECG sample numbers. -/
inductive Field8 where
  | absent
  | malformed
  | arr (l : List ℚ)
  deriving DecidableEq

/-- One raw ThingSpeak feed record.  `created_at` is the record's timestamp
(`new Date(created_at)` modelled as an opaque integer). -/
structure Feed where
  created_at : ℤ
  field1 : String
  field2 : String
  field3 : String
  field4 : String
  field5 : String
  field6 : String
  field7 : String
  field8 : Field8
  deriving DecidableEq

/-- The resolver's location entity.  A missing `timestamp` key is `none`. -/
structure Location where
  lat : Option ℚ
  lng : Option ℚ
  accuracy : ℚ
  isLastKnown : Bool
  timestamp : Option ℤ
  deriving DecidableEq

/-- Coordinate acceptance test of `getLastValidLocation`:
`!isNaN(lat) && !isNaN(lng) && lat !== 0 && lng !== 0`. -/
def coordOk (la lo : Option ℚ) : Bool :=
  match la, lo with
  | some a, some b => decide (a ≠ 0) && decide (b ≠ 0)
  | _, _ => false

/-- Whether a feed record carries acceptable coordinates in field5/field6. -/
def feedCoordOk (f : Feed) : Bool :=
  coordOk (jsParseFloat f.field5) (jsParseFloat f.field6)

/-- Fallback part of `getLastValidLocation`: scan the feed list in the
provided order for the first record with valid nonzero coordinates, then the
persisted cache entry (re-flagged `isLastKnown`), then the null location. -/
def locFromHistory (feeds : List Feed) (cache : Option Location) : Location :=
  match feeds.find? feedCoordOk with
  | some g =>
    { lat := jsParseFloat g.field5, lng := jsParseFloat g.field6,
      accuracy := 15, isLastKnown := true, timestamp := some g.created_at }
  | none =>
    match cache with
    | some c => { c with isLastKnown := true }
    | none =>
      { lat := none, lng := none, accuracy := 15, isLastKnown := true,
        timestamp := none }

/-- Source `getLastValidLocation`: current record first (`isLastKnown=false`),
then the historical/cache/null fallback chain.  `cache` models the
`lastKnownLocation_{channelId}` localStorage entry. -/
def getLastValidLocation (feeds : List Feed) (cache : Option Location) : Location :=
  match feeds with
  | latest :: _ =>
    if feedCoordOk latest then
      { lat := jsParseFloat latest.field5, lng := jsParseFloat latest.field6,
        accuracy := 15, isLastKnown := false, timestamp := some latest.created_at }
    else locFromHistory feeds cache
  | [] => locFromHistory feeds cache

/-! ## Current-vitals snapshot (mapThingSpeakToPatientVitals) -/

/-- Display value of one vital: the "--" sentinel, a JS number, or the
string produced by `toFixed(1)` (carried as its rational value). -/
inductive JSDisp where
  | unavail
  | num (q : ℚ)
  | str1 (q : ℚ)
  deriving DecidableEq

/-- The `vitals` part of the snapshot. -/
structure Vitals where
  temperature : JSDisp
  alertLevel : ℤ
  heartRate : JSDisp
  spo2 : JSDisp
  avgEcg : JSDisp
  ecgSamples : List ℚ
  bp : ℤ × ℤ
  deriving DecidableEq

/-- The `status` part of the snapshot. -/
structure StatusS where
  temperature : String
  heartRate : String
  spo2 : String
  bp : String
  alert : String
  deriving DecidableEq

/-- The assembled snapshot (vitals, location, status). -/
structure Snapshot where
  vitals : Vitals
  location : Location
  status : StatusS
  deriving DecidableEq

/-- Result of `mapThingSpeakToPatientVitals`: `noFeeds` models the `null`
return on an empty feed list, `jsonError` models the uncaught exception of
`JSON.parse(latestEntry.field8)`. -/
inductive MapResult where
  | noFeeds
  | jsonError
  | ok (snap : Snapshot)
  deriving DecidableEq

/-- Builds the snapshot from the latest record once `JSON.parse(field8)`
has produced the sample array `ecgSamples`. -/
noncomputable def buildSnapshot (latest : Feed) (feeds : List Feed)
    (cache : Option Location) (r1 r2 : ℚ) (ecgSamples : List ℚ) : Snapshot :=
  let locationData := getLastValidLocation feeds cache
  let temperature := jsParseFloat latest.field1
  let alertLevel := jsParseInt latest.field2
  let heartRate := jsParseFloat latest.field3
  let spo2 := jsParseFloat latest.field4
  let avgEcg := jsParseFloat latest.field7
  let bp := calculateBP ecgSamples heartRate spo2 r1 r2
  { vitals :=
      { temperature :=
          match temperature with
          | none => JSDisp.unavail
          | some q => JSDisp.str1 (jsToFixed1 q)
        alertLevel :=
          match alertLevel with
          | none => 0
          | some n => n
        heartRate :=
          match heartRate with
          | none => JSDisp.unavail
          | some q => JSDisp.num ((jsRoundQ q : ℤ) : ℚ)
        spo2 :=
          match spo2 with
          | none => JSDisp.unavail
          | some q => JSDisp.num ((jsRoundQ q : ℤ) : ℚ)
        avgEcg :=
          match avgEcg with
          | none => JSDisp.unavail
          | some q => JSDisp.num q
        ecgSamples := ecgSamples
        bp := bp }
    location := locationData
    status :=
      { temperature :=
          if jsGtB temperature (37.8 : ℚ) then ("Elevated")
          else if jsLtB temperature (35.5 : ℚ) then ("Low") else ("Normal")
        heartRate :=
          if jsGtB heartRate 100 then ("Elevated")
          else if jsLtB heartRate 60 then ("Low") else ("Normal")
        spo2 := if jsLtB spo2 95 then ("Low") else ("Normal")
        bp :=
          if bp.1 > 140 ∨ bp.2 > 90 then ("Elevated")
          else if bp.1 < 90 ∨ bp.2 < 60 then ("Low") else ("Normal")
        alert :=
          if alertLevel = some 0 then ("Normal")
          else if alertLevel = some 1 then ("Moderate Risk")
          else ("High Risk") } }

/-- Source `mapThingSpeakToPatientVitals`.  Note that `status.alert` is
computed from the raw `parseInt` result (which may be NaN), not from the
defaulted `vitals.alertLevel`. -/
noncomputable def mapThingSpeakToPatientVitals (feeds : List Feed)
    (cache : Option Location) (r1 r2 : ℚ) : MapResult :=
  match feeds with
  | [] => MapResult.noFeeds
  | latest :: _ =>
    match latest.field8 with
    | Field8.arr ecgSamples =>
      MapResult.ok (buildSnapshot latest feeds cache r1 r2 ecgSamples)
    | _ => MapResult.jsonError

/-- Projection: the snapshot of a successful mapping. -/
def snapOf : MapResult → Option Snapshot
  | MapResult.ok s => some s
  | _ => none

/-- Projection: the vitals of a successful mapping. -/
def vitalsOf (m : MapResult) : Option Vitals := (snapOf m).map Snapshot.vitals

/-- Projection: the status of a successful mapping. -/
def statusOf (m : MapResult) : Option StatusS := (snapOf m).map Snapshot.status

/-! ## Historical series assembler (fetchHistoricalData, formatting stage) -/

/-- JS `array.slice(-n)`: the last `n` elements (all of them if fewer). -/
def takeLast (n : ℕ) (l : List Feed) : List Feed := l.drop (l.length - n)

/-- The ECG sample list used for BP derivation:
`feed.field8 ? JSON.parse(feed.field8) : []` when the parse succeeds. -/
def ecgOf (f : Feed) : List ℚ :=
  match f.field8 with
  | Field8.arr l => l
  | _ => []

/-- Whether `JSON.parse(feed.field8)` would throw. -/
def hasBadField8 (f : Feed) : Bool :=
  match f.field8 with
  | Field8.malformed => true
  | _ => false

/-- One entry of the historical `bp` array: the per-record `try/catch`
around `JSON.parse(field8)` and `calculateBP`; a throwing record yields
`{systolic: null, diastolic: null}`. -/
noncomputable def bpEntry (f : Feed) (r : ℚ × ℚ) : Option ℤ × Option ℤ :=
  if hasBadField8 f then (none, none)
  else
    let bp := calculateBP (ecgOf f) (jsParseFloat f.field3) (jsParseFloat f.field4) r.1 r.2
    (some bp.1, some bp.2)

/-- The historical `bp` array, one entry per record; `rnd i` supplies the
`Math.random()` pair consumed by record number `i`. -/
noncomputable def bpSeries (rnd : ℕ → ℚ × ℚ) : ℕ → List Feed → List (Option ℤ × Option ℤ)
  | _, [] => []
  | i, f :: fs => bpEntry f (rnd i) :: bpSeries rnd (i + 1) fs

/-- The index-aligned arrays of `fetchHistoricalData`'s `formattedData`. -/
structure Formatted where
  timestamps : List ℤ
  temperature : List (Option ℚ)
  alertLevel : List (Option ℤ)
  heartRate : List (Option ℚ)
  spo2 : List (Option ℚ)
  bp : List (Option ℤ × Option ℤ)
  avgEcg : List (Option ℚ)
  deriving DecidableEq

/-- Formatting stage of `fetchHistoricalData`: keep the last 10 records and
build the per-field arrays (`isNaN(val) ? null : val` is the `Option`). -/
noncomputable def formatHistoricalData (feeds : List Feed) (rnd : ℕ → ℚ × ℚ) : Formatted :=
  let limitedFeeds := takeLast 10 feeds
  { timestamps := limitedFeeds.map Feed.created_at
    temperature := limitedFeeds.map (fun f => jsParseFloat f.field1)
    alertLevel := limitedFeeds.map (fun f => jsParseInt f.field2)
    heartRate := limitedFeeds.map (fun f => jsParseFloat f.field3)
    spo2 := limitedFeeds.map (fun f => jsParseFloat f.field4)
    bp := bpSeries rnd 0 limitedFeeds
    avgEcg := limitedFeeds.map (fun f => jsParseFloat f.field7) }

/-! ## CSV exporter (convertThingSpeakDataToCSV) -/

/-- One CSV cell, kept symbolic: a literal string (header names, the empty
string for failed parses), a `toFixed(1)` rendering, a raw JS number, an
integer-valued number, or the `toISOString` rendering of a timestamp. -/
inductive Cell where
  | str (s : String)
  | fixed1 (q : ℚ)
  | num (q : ℚ)
  | int (n : ℤ)
  | iso (t : ℤ)
  deriving DecidableEq

/-- The fixed CSV header row. -/
def csvHeader : List Cell :=
  [Cell.str ("timestamp"), Cell.str ("temperature"), Cell.str ("alertLevel"),
   Cell.str ("heartRate"), Cell.str ("spo2"), Cell.str ("latitude"),
   Cell.str ("longitude"), Cell.str ("avgEcg"), Cell.str ("systolicBP"),
   Cell.str ("diastolicBP")]

/-- One CSV data row for a record (assuming its `field8` does not throw);
`r` is the `Math.random()` pair available to `calculateBP`. -/
noncomputable def csvRow (f : Feed) (r : ℚ × ℚ) : List Cell :=
  let temperature := jsParseFloat f.field1
  let alertLevel := jsParseInt f.field2
  let heartRate := jsParseFloat f.field3
  let spo2 := jsParseFloat f.field4
  let latitude := jsParseFloat f.field5
  let longitude := jsParseFloat f.field6
  let avgEcg := jsParseFloat f.field7
  let bp := calculateBP (ecgOf f) heartRate spo2 r.1 r.2
  [ Cell.iso f.created_at,
    (match temperature with
     | none => Cell.str ("")
     | some q => Cell.fixed1 (jsToFixed1 q)),
    (match alertLevel with
     | none => Cell.str ("")
     | some n => Cell.int n),
    (match heartRate with
     | none => Cell.str ("")
     | some q => Cell.int (jsRoundQ q)),
    (match spo2 with
     | none => Cell.str ("")
     | some q => Cell.int (jsRoundQ q)),
    (match latitude with
     | none => Cell.str ("")
     | some q => Cell.num q),
    (match longitude with
     | none => Cell.str ("")
     | some q => Cell.num q),
    (match avgEcg with
     | none => Cell.str ("")
     | some q => Cell.num q),
    Cell.int bp.1,
    Cell.int bp.2 ]

/-- The CSV data rows in feed order, threading the random source by index. -/
noncomputable def csvRows (rnd : ℕ → ℚ × ℚ) : ℕ → List Feed → List (List Cell)
  | _, [] => []
  | i, f :: fs => csvRow f (rnd i) :: csvRows rnd (i + 1) fs

/-- Result of the CSV conversion: the `null` return on missing/empty feeds,
the uncaught `JSON.parse` exception aborting the whole conversion, or the
produced rows. -/
inductive CsvResult where
  | nullResult
  | errorThrown
  | okRows (rows : List (List Cell))
  deriving DecidableEq

/-- Source `convertThingSpeakDataToCSV` as structured rows: there is no
try/catch in the per-record loop, so a record whose `field8` is malformed
JSON aborts the whole conversion; on success, the header row followed by
one row per record in order. -/
noncomputable def convertThingSpeakDataToCSV (feeds : List Feed)
    (rnd : ℕ → ℚ × ℚ) : CsvResult :=
  match feeds with
  | [] => CsvResult.nullResult
  | _ =>
    if feeds.any hasBadField8 then CsvResult.errorThrown
    else CsvResult.okRows (csvHeader :: csvRows rnd 0 feeds)

/-! ## Concrete inputs used by witnesses and counterexamples -/

/-- Concrete 20-sample waveform with population standard deviation 0.6. -/
def ecgVarEx : List ℚ := List.replicate 10 (3 / 5) ++ List.replicate 10 (-(3 / 5))

/-- Builds a feed record with timestamp 0 from its eight fields. -/
def mkFeed (f1 f2 f3 f4 f5 f6 f7 : String) (f8 : Field8) : Feed :=
  { created_at := 0, field1 := f1, field2 := f2, field3 := f3, field4 := f4,
    field5 := f5, field6 := f6, field7 := f7, field8 := f8 }

/-- A record whose latitude reads exactly 0 (longitude 5). -/
def zeroLatFeed : Feed := mkFeed ("") ("") ("") ("") ("0") ("5") ("") Field8.absent

/-- A record with fractional heart rate 72.4 and an empty sample array. -/
def hr724Feed : Feed :=
  mkFeed ("36.0") ("1") ("72.4") ("98") ("") ("") ("") (Field8.arr [])

/-- A record with mixed parseable and unparseable fields. -/
def mixedFeed : Feed :=
  mkFeed ("37.0") ("x") ("72") ("-") ("") ("") ("0.25") (Field8.arr [])

/-- A record whose alert level field is not numeric. -/
def badAlertFeed : Feed :=
  mkFeed ("36.5") ("abc") ("72") ("98") ("") ("") ("") (Field8.arr [])

/-- A record whose vital fields are all unparseable. -/
def nanVitalsFeed : Feed :=
  mkFeed ("N/A") ("0") ("") ("abc") ("") ("") ("") (Field8.arr [])

/-- A record with an absent ECG sample field (no waveform, parse succeeds). -/
def plainFeed : Feed := mkFeed ("36.5") ("0") ("72") ("98") ("") ("") ("") Field8.absent

/-- A record whose field8 is malformed JSON (`JSON.parse` throws). -/
def badJsonFeed : Feed :=
  mkFeed ("36.5") ("0") ("72") ("98") ("") ("") ("") Field8.malformed

/-- A degenerate random source: every draw is 0. -/
def rnd0 : ℕ → ℚ × ℚ := fun _ => (0, 0)

/-! ## Theorems -/

/-- Auxiliary: the population variance of a constant-valued list is 0. -/
theorem popVariance_const (s : List ℚ) (c : ℚ) (hc : ∀ x ∈ s, x = c)
    (hne : s ≠ []) : popVariance s = 0 := by
  have hlen : (s.length : ℚ) ≠ 0 := by
    have : s.length ≠ 0 := fun h => hne (List.length_eq_zero.mp h)
    exact_mod_cast this
  have hsum : s.sum = s.length • c := List.sum_eq_card_nsmul s c hc
  have hmean : listMean s = c := by
    rw [listMean, hsum, nsmul_eq_mul, mul_div_assoc]
    field_simp
  have hzero : ∀ x ∈ squaredDiffs s, x = 0 := by
    intro x hx
    rcases List.mem_map.mp hx with ⟨v, hv, rfl⟩
    rw [hmean, hc v hv]
    ring
  rw [popVariance, List.sum_eq_zero hzero, zero_div]

/-- C3: the ECG variability estimator returns 0 for fewer than 10 samples
and `min(populationStdDev / 0.5, 1)` for at least 10 samples, always lies
in [0,1], is 0 on constant-valued sequences, and is exactly 1 whenever the
population standard deviation is at least 0.5 (with at least 10 samples). -/
theorem ecgVariability_spec (s : List ℚ) (c : ℚ) :
    (s.length < 10 → calculateEcgVariability s = 0) ∧
    (10 ≤ s.length →
      calculateEcgVariability s = min (Real.sqrt (popVariance s) / 0.5) 1) ∧
    0 ≤ calculateEcgVariability s ∧ calculateEcgVariability s ≤ 1 ∧
    ((∀ x ∈ s, x = c) → calculateEcgVariability s = 0) ∧
    (10 ≤ s.length → 1 / 2 ≤ Real.sqrt (popVariance s) →
      calculateEcgVariability s = 1) := by
  have hb : 0 ≤ calculateEcgVariability s ∧ calculateEcgVariability s ≤ 1 := by
    rw [calculateEcgVariability]
    split_ifs
    · norm_num
    · constructor
      · refine le_min ?_ (by norm_num)
        positivity
      · exact min_le_right _ _
  refine ⟨fun h => by rw [calculateEcgVariability, if_pos h],
    fun h => by rw [calculateEcgVariability, if_neg (by omega)],
    hb.1, hb.2, ?_, ?_⟩
  · intro hc
    by_cases hlen : s.length < 10
    · rw [calculateEcgVariability, if_pos hlen]
    · have hne : s ≠ [] := by
        intro h
        rw [h] at hlen
        simp at hlen
      rw [calculateEcgVariability, if_neg hlen, popVariance_const s c hc hne]
      norm_num
  · intro hlen hsd
    rw [calculateEcgVariability, if_neg (by omega)]
    refine min_eq_right ?_
    rw [le_div_iff₀ (by norm_num)]
    linarith

/-- Auxiliary: the example waveform has population variance 9/25. -/
theorem popVariance_ecgVarEx : popVariance ecgVarEx = 9 / 25 := by
  have hmean : listMean ecgVarEx = 0 := by
    rw [listMean, ecgVarEx]
    norm_num [List.sum_append, List.sum_replicate]
  rw [popVariance, squaredDiffs, hmean, ecgVarEx]
  norm_num [List.map_append, List.map_replicate, List.sum_append,
    List.sum_replicate, List.length_append, List.length_replicate]

/-- Witness for C3: a constant 12-sample sequence scores 0 and the example
waveform with standard deviation 0.6 scores exactly 1. -/
theorem ecgVariability_spec_witness :
    calculateEcgVariability (List.replicate 12 (0 : ℚ)) = 0 ∧
    calculateEcgVariability ecgVarEx = 1 := by
  constructor
  · exact (ecgVariability_spec (List.replicate 12 (0 : ℚ)) 0).2.2.2.2.1
      (fun x hx => List.eq_of_mem_replicate hx)
  · refine (ecgVariability_spec ecgVarEx 0).2.2.2.2.2 (by
      rw [ecgVarEx]
      simp) ?_
    rw [popVariance_ecgVarEx]
    have h925 : ((9 / 25 : ℚ) : ℝ) = (3 / 5 : ℝ) ^ 2 := by
      push_cast
      norm_num
    rw [h925, Real.sqrt_sq (by norm_num : (0 : ℝ) ≤ 3 / 5)]
    norm_num

/-- C2: for any ECG sample list, any heart rate and SpO2 (numeric or NaN)
and any values of the random source in [0,1), the BP estimator's output
lies in [80,200] x [40,120]; when there are fewer than 10 samples or the
heart rate is NaN, the result is the 120/80 baseline plus an integer offset
in [-5,+5] on each component, drawn independently from the two random
values. -/
theorem calculateBP_bounds (ecg : List ℚ) (hr spo2 : Option ℚ) (r1 r2 : ℚ)
    (h1 : 0 ≤ r1) (h2 : r1 < 1) (h3 : 0 ≤ r2) (h4 : r2 < 1) :
    (80 ≤ (calculateBP ecg hr spo2 r1 r2).1 ∧
      (calculateBP ecg hr spo2 r1 r2).1 ≤ 200 ∧
      40 ≤ (calculateBP ecg hr spo2 r1 r2).2 ∧
      (calculateBP ecg hr spo2 r1 r2).2 ≤ 120) ∧
    (ecg.length < 10 ∨ hr = none →
      calculateBP ecg hr spo2 r1 r2 =
        (120 + (⌊r1 * 10⌋ - 5), 80 + (⌊r2 * 10⌋ - 5)) ∧
      -5 ≤ ⌊r1 * 10⌋ - 5 ∧ ⌊r1 * 10⌋ - 5 ≤ 5 ∧
      -5 ≤ ⌊r2 * 10⌋ - 5 ∧ ⌊r2 * 10⌋ - 5 ≤ 5) := by
  have hf1 : (0 : ℤ) ≤ ⌊r1 * 10⌋ := Int.le_floor.mpr (by push_cast; nlinarith)
  have hf2 : ⌊r1 * 10⌋ ≤ 9 := by
    have : ⌊r1 * 10⌋ < 10 := Int.floor_lt.mpr (by push_cast; nlinarith)
    omega
  have hf3 : (0 : ℤ) ≤ ⌊r2 * 10⌋ := Int.le_floor.mpr (by push_cast; nlinarith)
  have hf4 : ⌊r2 * 10⌋ ≤ 9 := by
    have : ⌊r2 * 10⌋ < 10 := Int.floor_lt.mpr (by push_cast; nlinarith)
    omega
  rw [calculateBP.eq_def]
  split_ifs with hdeg
  · exact ⟨⟨by omega, by omega, by omega, by omega⟩,
      fun _ => ⟨rfl, by omega, by omega, by omega, by omega⟩⟩
  · constructor
    · dsimp only
      rw [clampValue, clampValue]
      refine ⟨le_max_left _ _, max_le (by norm_num) (min_le_left _ _),
        le_max_left _ _, max_le (by norm_num) (min_le_left _ _)⟩
    · intro h
      exact absurd (by tauto) hdeg

/-- Witness for C2: with no samples, NaN heart rate and both random draws
equal to 1/2, the estimator returns exactly 120/80, inside the bounds. -/
theorem calculateBP_bounds_witness :
    calculateBP [] none none (1 / 2) (1 / 2) = (120, 80) ∧
    80 ≤ (calculateBP [] none none (1 / 2) (1 / 2)).1 ∧
    (calculateBP [] none none (1 / 2) (1 / 2)).1 ≤ 200 ∧
    40 ≤ (calculateBP [] none none (1 / 2) (1 / 2)).2 ∧
    (calculateBP [] none none (1 / 2) (1 / 2)).2 ≤ 120 := by
  have h := calculateBP_bounds [] none none (1 / 2) (1 / 2)
    (by norm_num) (by norm_num) (by norm_num) (by norm_num)
  have hfloor : ⌊(1 / 2 : ℚ) * 10⌋ = 5 := by norm_num
  have heq := (h.2 (Or.inr rfl)).1
  rw [hfloor] at heq
  norm_num at heq
  exact ⟨heq, h.1.1, h.1.2.1, h.1.2.2.1, h.1.2.2.2⟩

/-- Auxiliary: on any constant sample list the variability score is 0. -/
theorem ecgVariability_const (s : List ℚ) (c : ℚ) (hc : ∀ x ∈ s, x = c) :
    calculateEcgVariability s = 0 := by
  by_cases hlen : s.length < 10
  · rw [calculateEcgVariability, if_pos hlen]
  · have hne : s ≠ [] := by
      intro h
      rw [h] at hlen
      simp at hlen
    rw [calculateEcgVariability, if_neg hlen, popVariance_const s c hc hne]
    norm_num

/-- Auxiliary: the example waveform (stdDev 0.6) has variability score 1. -/
theorem ecgVariability_varEx : calculateEcgVariability ecgVarEx = 1 := by
  rw [calculateEcgVariability, if_neg (by rw [ecgVarEx]; simp), popVariance_ecgVarEx]
  have h925 : ((9 / 25 : ℚ) : ℝ) = (3 / 5 : ℝ) ^ 2 := by
    push_cast
    norm_num
  rw [h925, Real.sqrt_sq (by norm_num : (0 : ℝ) ≤ 3 / 5)]
  norm_num

/-- Auxiliary: the source's piecewise heart-rate effect agrees with the
claim's piecewise description. -/
theorem hrEffect_eq_spec (hr : ℚ) :
    (if hr < 60 then (-10 : ℝ) * (1 - (hr : ℝ) / 60)
     else if hr > 100 then 15 * (((hr : ℝ) - 100) / 50) else 0) =
      specHrEffect hr := by
  rw [specHrEffect]
  split_ifs with h1 h2 h3 h4 <;> try rfl
  · linarith [h2.1]
  · linarith [h4.2]
  · rcases not_and_or.mp (by assumption : ¬(60 ≤ hr ∧ hr ≤ 100)) with h | h
    · linarith [not_lt.mp h1, not_le.mp h]
    · linarith [not_lt.mp h3, not_le.mp h]

/-- Auxiliary: the source's SpO2 effect agrees with the claim's description. -/
theorem spo2Effect_eq_spec (s : ℚ) :
    (if s < 95 then (5 : ℝ) * ((95 - (s : ℝ)) / 5) else 0) = specSpo2Effect s := by
  rw [specSpo2Effect]
  split_ifs with h1 h2 <;> try rfl
  · linarith
  · linarith [not_lt.mp h1, not_le.mp (by assumption : ¬95 ≤ s)]

/-- C1 (amended): with at least 10 ECG samples, a numeric nonzero heart
rate and a numeric SpO2, the BP estimator returns exactly the claim's
weighted formula, additionally clamped to [80,200] (systolic) and [40,120]
(diastolic); the clamp is the amendment forced by the counterexample. -/
theorem calculateBP_normal_formula (ecg : List ℚ) (hr s r1 r2 : ℚ)
    (h10 : 10 ≤ ecg.length) (hhr : hr ≠ 0) :
    calculateBP ecg (some hr) (some s) r1 r2 =
      (clampValue (jsRoundR ((120 : ℝ) + 0.6 * specHrEffect hr
          + 0.2 * specSpo2Effect s
          + 0.2 * (10 * calculateEcgVariability ecg))) 80 200,
       clampValue (jsRoundR ((80 : ℝ) + 0.4 * specHrEffect hr
          + 0.1 * specSpo2Effect s
          + 0.1 * (10 * calculateEcgVariability ecg))) 40 120) := by
  rw [calculateBP.eq_def]
  rw [if_neg (by
    simp only [not_or]
    exact ⟨by omega, by simp, by simp [hhr]⟩)]
  dsimp only [Option.getD]
  rw [hrEffect_eq_spec, spo2Effect_eq_spec]
  simp only [Prod.mk.injEq]
  constructor <;> (congr 1; congr 1; ring)

/-- Counterexample for C1 as stated: at heartRate 1000 (finite, nonzero),
SpO2 98 and 10 constant samples, the claim's unclamped formula rounds to
282, but the estimator clamps and returns systolic 200 — so the output is
not `round(120 + 0.6*hrEffect + 0.2*spo2Effect + 0.2*ecgEffect)`. -/
theorem calculateBP_formula_counterexample :
    calculateBP (List.replicate 10 (0 : ℚ)) (some 1000) (some 98) 0 0 = (200, 120) ∧
    jsRoundR ((120 : ℝ) + 0.6 * specHrEffect 1000 + 0.2 * specSpo2Effect 98
      + 0.2 * (10 * calculateEcgVariability (List.replicate 10 (0 : ℚ)))) = 282 ∧
    (200 : ℤ) ≠ 282 := by
  have hv : calculateEcgVariability (List.replicate 10 (0 : ℚ)) = 0 :=
    ecgVariability_const _ 0 (fun x hx => List.eq_of_mem_replicate hx)
  have hhr : specHrEffect 1000 = 270 := by
    rw [specHrEffect]
    norm_num
  have hsp : specSpo2Effect 98 = 0 := by
    rw [specSpo2Effect]
    norm_num
  refine ⟨?_, ?_, by norm_num⟩
  · rw [calculateBP.eq_def, if_neg (by simp)]
    dsimp only [Option.getD]
    rw [hv]
    norm_num [jsRoundR, clampValue]
  · rw [hv, hhr, hsp, jsRoundR]
    norm_num

/-- Witness for C1: heartRate 130, SpO2 90 and the 20-sample waveform with
standard deviation 0.6 give systolic 128 and diastolic 85, as in the
claim's example. -/
theorem calculateBP_normal_formula_witness :
    calculateBP ecgVarEx (some 130) (some 90) 0 0 = (128, 85) := by
  have h := calculateBP_normal_formula ecgVarEx 130 90 0 0
    (by rw [ecgVarEx]; simp) (by norm_num)
  rw [h, ecgVariability_varEx]
  have hhr : specHrEffect 130 = 9 := by
    rw [specHrEffect]
    norm_num
  have hsp : specSpo2Effect 90 = 5 := by
    rw [specSpo2Effect]
    norm_num
  rw [hhr, hsp, jsRoundR, jsRoundR]
  norm_num [clampValue]

/-- Auxiliary: evaluates `jsParseFloat` from a computed scan result. -/
theorem jsParseFloat_eq_of_scan (s : String) (neg : Bool) (ip fp : List ℕ)
    (ex : ℤ) (h : scanNum s = ⟨neg, ip, fp, ex, true⟩) :
    jsParseFloat s = some (if neg then
      -(((natOfDigits ip : ℚ) + (natOfDigits fp : ℚ) / (10 : ℚ) ^ fp.length)
          * (10 : ℚ) ^ ex)
    else ((natOfDigits ip : ℚ) + (natOfDigits fp : ℚ) / (10 : ℚ) ^ fp.length)
          * (10 : ℚ) ^ ex) := by
  rw [jsParseFloat, h]
  rfl

/-- Auxiliary: `jsParseFloat` is NaN when the scan finds no digits. -/
theorem jsParseFloat_none_of_scan (s : String) (h : (scanNum s).ok = false) :
    jsParseFloat s = none := by
  rw [jsParseFloat]
  simp [h]

/-- C6: when the most recent record's latitude (or longitude) parses to 0,
the resolver rejects it — a pair is accepted only when both coordinates
parse and neither is 0 — and falls through to the first historical record
with valid coordinates (flagged `isLastKnown`), then the persisted cache
entry, then the null location; in every fallback case `isLastKnown` is
true. -/
theorem location_zero_coordinate_fallback (f : Feed) (rest : List Feed)
    (cache : Option Location)
    (hz : jsParseFloat f.field5 = some 0 ∨ jsParseFloat f.field6 = some 0) :
    feedCoordOk f = false ∧
    (∀ g : Feed, feedCoordOk g = true ↔
      ∃ a b, jsParseFloat g.field5 = some a ∧ jsParseFloat g.field6 = some b ∧
        a ≠ 0 ∧ b ≠ 0) ∧
    getLastValidLocation (f :: rest) cache =
      (match rest.find? feedCoordOk with
       | some g =>
         { lat := jsParseFloat g.field5, lng := jsParseFloat g.field6,
           accuracy := 15, isLastKnown := true, timestamp := some g.created_at }
       | none =>
         match cache with
         | some c => { c with isLastKnown := true }
         | none =>
           { lat := none, lng := none, accuracy := 15, isLastKnown := true,
             timestamp := none }) ∧
    (getLastValidLocation (f :: rest) cache).isLastKnown = true := by
  have hok : feedCoordOk f = false := by
    rcases hz with h | h
    · rcases h6 : jsParseFloat f.field6 with _ | b <;>
        simp [feedCoordOk, coordOk, h, h6]
    · rcases h5 : jsParseFloat f.field5 with _ | a <;>
        simp [feedCoordOk, coordOk, h, h5]
  have hchar : ∀ g : Feed, feedCoordOk g = true ↔
      ∃ a b, jsParseFloat g.field5 = some a ∧ jsParseFloat g.field6 = some b ∧
        a ≠ 0 ∧ b ≠ 0 := by
    intro g
    rcases h5 : jsParseFloat g.field5 with _ | a <;>
      rcases h6 : jsParseFloat g.field6 with _ | b <;>
      simp [feedCoordOk, coordOk, h5, h6]
  have hmain : getLastValidLocation (f :: rest) cache =
      (match rest.find? feedCoordOk with
       | some g =>
         { lat := jsParseFloat g.field5, lng := jsParseFloat g.field6,
           accuracy := 15, isLastKnown := true, timestamp := some g.created_at }
       | none =>
         match cache with
         | some c => { c with isLastKnown := true }
         | none =>
           { lat := none, lng := none, accuracy := 15, isLastKnown := true,
             timestamp := none }) := by
    rw [getLastValidLocation]
    rw [if_neg (by rw [hok]; simp)]
    rw [locFromHistory.eq_def]
    rw [List.find?_cons_of_neg _ (by rw [hok]; simp)]
  refine ⟨hok, hchar, hmain, ?_⟩
  rw [hmain]
  rcases rest.find? feedCoordOk with _ | g
  · rcases cache with _ | c <;> rfl
  · rfl

/-- Witness for C6: a single record with latitude "0" and longitude "5",
with no history and no cache, resolves to the null location. -/
theorem location_zero_coordinate_fallback_witness :
    getLastValidLocation [zeroLatFeed] none =
      { lat := none, lng := none, accuracy := 15, isLastKnown := true,
        timestamp := none } := by
  have hz : jsParseFloat zeroLatFeed.field5 = some 0 := by
    rw [show zeroLatFeed.field5 = ("0" : String) from rfl,
      jsParseFloat_eq_of_scan ("0") false [0] [] 0 rfl]
    norm_num [natOfDigits, List.foldl_cons, List.foldl_nil]
  have h := (location_zero_coordinate_fallback zeroLatFeed [] none (Or.inl hz)).2.2.1
  rw [h]
  rfl

/-- C10: when a vital field of the latest record fails to parse, the status
classifier reports that vital as "Normal" (never "Low"/"Elevated"), because
every threshold comparison against NaN is false. -/
theorem unavailable_vital_status_normal (f : Feed) (rest : List Feed)
    (cache : Option Location) (r1 r2 : ℚ) (l : List ℚ)
    (h8 : f.field8 = Field8.arr l) :
    (jsParseFloat f.field1 = none →
      (statusOf (mapThingSpeakToPatientVitals (f :: rest) cache r1 r2)).map
        StatusS.temperature = some ("Normal")) ∧
    (jsParseFloat f.field3 = none →
      (statusOf (mapThingSpeakToPatientVitals (f :: rest) cache r1 r2)).map
        StatusS.heartRate = some ("Normal")) ∧
    (jsParseFloat f.field4 = none →
      (statusOf (mapThingSpeakToPatientVitals (f :: rest) cache r1 r2)).map
        StatusS.spo2 = some ("Normal")) := by
  refine ⟨fun h => ?_, fun h => ?_, fun h => ?_⟩ <;>
    simp [mapThingSpeakToPatientVitals, h8, statusOf, snapOf, buildSnapshot,
      h, jsGtB, jsLtB]

/-- Witness for C10: a record whose temperature, heart rate and SpO2 fields
are all unparseable is classified "Normal" on all three vitals. -/
theorem unavailable_vital_status_normal_witness :
    (statusOf (mapThingSpeakToPatientVitals [nanVitalsFeed] none 0 0)).map
      StatusS.temperature = some ("Normal") ∧
    (statusOf (mapThingSpeakToPatientVitals [nanVitalsFeed] none 0 0)).map
      StatusS.heartRate = some ("Normal") ∧
    (statusOf (mapThingSpeakToPatientVitals [nanVitalsFeed] none 0 0)).map
      StatusS.spo2 = some ("Normal") := by
  have h := unavailable_vital_status_normal nanVitalsFeed [] none 0 0 [] rfl
  exact ⟨h.1 rfl, h.2.1 rfl, h.2.2 rfl⟩

/-- C4 (amended): each vital field is coerced with `parseFloat` and then
display-formatted — temperature rendered via `toFixed(1)`, heart rate and
SpO2 rounded with `Math.round`, avgEcg kept exactly — and every field that
fails to coerce maps to the "--" sentinel (0 for the alert level), never to
NaN. -/
theorem parser_display_mapping (f : Feed) (rest : List Feed)
    (cache : Option Location) (r1 r2 : ℚ) (l : List ℚ)
    (h8 : f.field8 = Field8.arr l) :
    (∀ q, jsParseFloat f.field1 = some q →
      (vitalsOf (mapThingSpeakToPatientVitals (f :: rest) cache r1 r2)).map
        Vitals.temperature = some (JSDisp.str1 (jsToFixed1 q))) ∧
    (jsParseFloat f.field1 = none →
      (vitalsOf (mapThingSpeakToPatientVitals (f :: rest) cache r1 r2)).map
        Vitals.temperature = some JSDisp.unavail) ∧
    (∀ q, jsParseFloat f.field3 = some q →
      (vitalsOf (mapThingSpeakToPatientVitals (f :: rest) cache r1 r2)).map
        Vitals.heartRate = some (JSDisp.num ((jsRoundQ q : ℤ) : ℚ))) ∧
    (jsParseFloat f.field3 = none →
      (vitalsOf (mapThingSpeakToPatientVitals (f :: rest) cache r1 r2)).map
        Vitals.heartRate = some JSDisp.unavail) ∧
    (∀ q, jsParseFloat f.field4 = some q →
      (vitalsOf (mapThingSpeakToPatientVitals (f :: rest) cache r1 r2)).map
        Vitals.spo2 = some (JSDisp.num ((jsRoundQ q : ℤ) : ℚ))) ∧
    (jsParseFloat f.field4 = none →
      (vitalsOf (mapThingSpeakToPatientVitals (f :: rest) cache r1 r2)).map
        Vitals.spo2 = some JSDisp.unavail) ∧
    (∀ q, jsParseFloat f.field7 = some q →
      (vitalsOf (mapThingSpeakToPatientVitals (f :: rest) cache r1 r2)).map
        Vitals.avgEcg = some (JSDisp.num q)) ∧
    (jsParseFloat f.field7 = none →
      (vitalsOf (mapThingSpeakToPatientVitals (f :: rest) cache r1 r2)).map
        Vitals.avgEcg = some JSDisp.unavail) ∧
    (jsParseInt f.field2 = none →
      (vitalsOf (mapThingSpeakToPatientVitals (f :: rest) cache r1 r2)).map
        Vitals.alertLevel = some 0) := by
  refine ⟨fun q h => ?_, fun h => ?_, fun q h => ?_, fun h => ?_, fun q h => ?_,
    fun h => ?_, fun q h => ?_, fun h => ?_, fun h => ?_⟩ <;>
    simp [mapThingSpeakToPatientVitals, h8, vitalsOf, snapOf, buildSnapshot, h]

/-- Counterexample for C4 as stated: the heart rate field "72.4" parses to
72.4 but the assembled vitals carry `Math.round`'s 72, so a numeric-looking
field is not mapped to the number `parseFloat` yields. -/
theorem parser_display_mapping_counterexample :
    (vitalsOf (mapThingSpeakToPatientVitals [hr724Feed] none 0 0)).map
      Vitals.heartRate = some (JSDisp.num 72) ∧
    jsParseFloat ("72.4") = some (362 / 5) ∧
    JSDisp.num (72 : ℚ) ≠ JSDisp.num (362 / 5) := by
  have hpf : jsParseFloat ("72.4") = some (362 / 5) := by
    rw [jsParseFloat_eq_of_scan ("72.4") false [7, 2] [4] 0 rfl]
    norm_num [natOfDigits, List.foldl_cons, List.foldl_nil]
  have hround : jsRoundQ (362 / 5) = 72 := by
    rw [jsRoundQ]
    norm_num
  refine ⟨?_, hpf, by norm_num⟩
  simp [mapThingSpeakToPatientVitals, show hr724Feed.field8 = Field8.arr [] from rfl,
    vitalsOf, snapOf, buildSnapshot,
    show hr724Feed.field3 = ("72.4" : String) from rfl, hpf, hround]

/-- Witness for C4: a record with temperature "37.0", heart rate "72",
avgEcg "0.25", unparseable SpO2 and alert level maps to `37.0`, `72`,
`0.25`, "--" and alert level 0. -/
theorem parser_display_mapping_witness :
    (vitalsOf (mapThingSpeakToPatientVitals [mixedFeed] none 0 0)).map
      Vitals.temperature = some (JSDisp.str1 37) ∧
    (vitalsOf (mapThingSpeakToPatientVitals [mixedFeed] none 0 0)).map
      Vitals.heartRate = some (JSDisp.num 72) ∧
    (vitalsOf (mapThingSpeakToPatientVitals [mixedFeed] none 0 0)).map
      Vitals.spo2 = some JSDisp.unavail ∧
    (vitalsOf (mapThingSpeakToPatientVitals [mixedFeed] none 0 0)).map
      Vitals.avgEcg = some (JSDisp.num (1 / 4)) ∧
    (vitalsOf (mapThingSpeakToPatientVitals [mixedFeed] none 0 0)).map
      Vitals.alertLevel = some 0 := by
  have h := parser_display_mapping mixedFeed [] none 0 0 [] rfl
  have h1 : jsParseFloat mixedFeed.field1 = some 37 := by
    rw [show mixedFeed.field1 = ("37.0" : String) from rfl,
      jsParseFloat_eq_of_scan ("37.0") false [3, 7] [0] 0 rfl]
    norm_num [natOfDigits, List.foldl_cons, List.foldl_nil]
  have h3 : jsParseFloat mixedFeed.field3 = some 72 := by
    rw [show mixedFeed.field3 = ("72" : String) from rfl,
      jsParseFloat_eq_of_scan ("72") false [7, 2] [] 0 rfl]
    norm_num [natOfDigits, List.foldl_cons, List.foldl_nil]
  have h7 : jsParseFloat mixedFeed.field7 = some (1 / 4) := by
    rw [show mixedFeed.field7 = ("0.25" : String) from rfl,
      jsParseFloat_eq_of_scan ("0.25") false [0] [2, 5] 0 rfl]
    norm_num [natOfDigits, List.foldl_cons, List.foldl_nil]
  have hfix : jsToFixed1 (37 : ℚ) = 37 := by
    rw [jsToFixed1]
    norm_num
  have hr72 : jsRoundQ (72 : ℚ) = 72 := by
    rw [jsRoundQ]
    norm_num
  refine ⟨?_, ?_, ?_, ?_, ?_⟩
  · rw [h.1 37 h1, hfix]
  · rw [h.2.2.1 72 h3, hr72]
    norm_num
  · exact h.2.2.2.2.2.1 rfl
  · exact h.2.2.2.2.2.2.1 (1 / 4) h7
  · exact h.2.2.2.2.2.2.2.2 rfl

/-- C5 evidence: with an unparseable alert field ("abc"), the snapshot's
`vitals.alertLevel` is defaulted to 0, yet `status.alert` — computed from
the raw NaN `parseInt` result, for which both `=== 0` and `=== 1` are
false — reads "High Risk" instead of the "Normal" the claim (and the
code's own 0-default) prescribes. -/
theorem alert_nan_defaults_conflict :
    (vitalsOf (mapThingSpeakToPatientVitals [badAlertFeed] none 0 0)).map
      Vitals.alertLevel = some 0 ∧
    (statusOf (mapThingSpeakToPatientVitals [badAlertFeed] none 0 0)).map
      StatusS.alert = some ("High Risk") ∧
    some ("High Risk") ≠ some ("Normal") := by
  have hai : jsParseInt badAlertFeed.field2 = none := rfl
  refine ⟨?_, ?_, by simp⟩ <;>
    simp [mapThingSpeakToPatientVitals,
      show badAlertFeed.field8 = Field8.arr [] from rfl,
      vitalsOf, statusOf, snapOf, buildSnapshot, hai]

/-- Auxiliary: the historical bp array has one entry per record. -/
theorem bpSeries_length (rnd : ℕ → ℚ × ℚ) (l : List Feed) :
    ∀ i, (bpSeries rnd i l).length = l.length := by
  induction l with
  | nil => intro i; rfl
  | cons f fs ih =>
    intro i
    simp only [bpSeries, List.length_cons, ih]

/-- Auxiliary: the historical bp array is index-aligned with the records. -/
theorem bpSeries_get? (rnd : ℕ → ℚ × ℚ) (l : List Feed) :
    ∀ i j, (bpSeries rnd i l)[j]? =
      l[j]?.map (fun f => bpEntry f (rnd (i + j))) := by
  induction l with
  | nil => intro i j; simp [bpSeries]
  | cons f fs ih =>
    intro i j
    cases j with
    | zero => simp [bpSeries]
    | succ j =>
      have harith : i + 1 + j = i + (j + 1) := by omega
      simp only [bpSeries, List.getElem?_cons_succ, ih (i + 1) j, harith]

/-- Auxiliary: the CSV data rows have one row per record. -/
theorem csvRows_length (rnd : ℕ → ℚ × ℚ) (l : List Feed) :
    ∀ i, (csvRows rnd i l).length = l.length := by
  induction l with
  | nil => intro i; rfl
  | cons f fs ih =>
    intro i
    simp only [csvRows, List.length_cons, ih]

/-- Auxiliary: the CSV data rows are index-aligned with the records. -/
theorem csvRows_get? (rnd : ℕ → ℚ × ℚ) (l : List Feed) :
    ∀ i j, (csvRows rnd i l)[j]? =
      l[j]?.map (fun f => csvRow f (rnd (i + j))) := by
  induction l with
  | nil => intro i j; simp [csvRows]
  | cons f fs ih =>
    intro i j
    cases j with
    | zero => simp [csvRows]
    | succ j =>
      have harith : i + 1 + j = i + (j + 1) := by omega
      simp only [csvRows, List.getElem?_cons_succ, ih (i + 1) j, harith]

/-- C8: for every non-empty feed list, all arrays of the assembled
historical series share one length, and each array is index-aligned with
the retained records — entry i is that record's own parse result (null
exactly when that field is unparseable, independent of sibling fields). -/
theorem historical_series_alignment (feeds : List Feed) (rnd : ℕ → ℚ × ℚ)
    (hne : feeds ≠ []) :
    ((formatHistoricalData feeds rnd).timestamps.length =
        (formatHistoricalData feeds rnd).temperature.length ∧
      (formatHistoricalData feeds rnd).timestamps.length =
        (formatHistoricalData feeds rnd).heartRate.length ∧
      (formatHistoricalData feeds rnd).timestamps.length =
        (formatHistoricalData feeds rnd).spo2.length ∧
      (formatHistoricalData feeds rnd).timestamps.length =
        (formatHistoricalData feeds rnd).bp.length ∧
      (formatHistoricalData feeds rnd).timestamps.length =
        (formatHistoricalData feeds rnd).avgEcg.length) ∧
    (∀ i : ℕ, (formatHistoricalData feeds rnd).temperature[i]? =
      (takeLast 10 feeds)[i]?.map (fun f => jsParseFloat f.field1)) ∧
    (∀ i : ℕ, (formatHistoricalData feeds rnd).heartRate[i]? =
      (takeLast 10 feeds)[i]?.map (fun f => jsParseFloat f.field3)) ∧
    (∀ i : ℕ, (formatHistoricalData feeds rnd).spo2[i]? =
      (takeLast 10 feeds)[i]?.map (fun f => jsParseFloat f.field4)) ∧
    (∀ i : ℕ, (formatHistoricalData feeds rnd).avgEcg[i]? =
      (takeLast 10 feeds)[i]?.map (fun f => jsParseFloat f.field7)) ∧
    (∀ i : ℕ, (formatHistoricalData feeds rnd).bp[i]? =
      (takeLast 10 feeds)[i]?.map (fun f => bpEntry f (rnd i))) := by
  refine ⟨⟨?_, ?_, ?_, ?_, ?_⟩, fun i => ?_, fun i => ?_, fun i => ?_,
    fun i => ?_, fun i => ?_⟩ <;>
    simp [formatHistoricalData, bpSeries_length, bpSeries_get?, List.getElem?_map]

/-- Witness for C8: the series over one plain record has all its arrays of
equal length. -/
theorem historical_series_alignment_witness :
    (formatHistoricalData [plainFeed] rnd0).timestamps.length =
      (formatHistoricalData [plainFeed] rnd0).temperature.length ∧
    (formatHistoricalData [plainFeed] rnd0).timestamps.length =
      (formatHistoricalData [plainFeed] rnd0).heartRate.length ∧
    (formatHistoricalData [plainFeed] rnd0).timestamps.length =
      (formatHistoricalData [plainFeed] rnd0).spo2.length ∧
    (formatHistoricalData [plainFeed] rnd0).timestamps.length =
      (formatHistoricalData [plainFeed] rnd0).bp.length ∧
    (formatHistoricalData [plainFeed] rnd0).timestamps.length =
      (formatHistoricalData [plainFeed] rnd0).avgEcg.length := by
  exact (historical_series_alignment [plainFeed] rnd0 (by simp)).1

/-- C7 (amended): in the historical assembler the `JSON.parse` error of a
record's field8 is caught per record — the bad record yields
`{systolic: null, diastolic: null}` while every other retained record still
gets its computed BP; in the CSV exporter, however, there is no per-record
catch, so a malformed record aborts the whole conversion. -/
theorem field8_error_granularity (feeds : List Feed) (rnd : ℕ → ℚ × ℚ) :
    (∀ (i : ℕ) (f : Feed), (takeLast 10 feeds)[i]? = some f →
      hasBadField8 f = true →
      (formatHistoricalData feeds rnd).bp[i]? = some (none, none)) ∧
    (∀ (i : ℕ) (f : Feed), (takeLast 10 feeds)[i]? = some f →
      hasBadField8 f = false →
      (formatHistoricalData feeds rnd).bp[i]? =
        some (some (calculateBP (ecgOf f) (jsParseFloat f.field3)
            (jsParseFloat f.field4) (rnd i).1 (rnd i).2).1,
          some (calculateBP (ecgOf f) (jsParseFloat f.field3)
            (jsParseFloat f.field4) (rnd i).1 (rnd i).2).2)) ∧
    (feeds.any hasBadField8 = true →
      convertThingSpeakDataToCSV feeds rnd = CsvResult.errorThrown) := by
  have hget : ∀ (i : ℕ), (formatHistoricalData feeds rnd).bp[i]? =
      (takeLast 10 feeds)[i]?.map (fun f => bpEntry f (rnd i)) := by
    intro i
    simp [formatHistoricalData, bpSeries_get?]
  refine ⟨fun i f hf hbad => ?_, fun i f hf hgood => ?_, fun hany => ?_⟩
  · rw [hget i, hf]
    simp [bpEntry, hbad]
  · rw [hget i, hf]
    simp [bpEntry, hgood]
  · match feeds with
    | [] => simp at hany
    | g :: gs =>
      rw [convertThingSpeakDataToCSV.eq_def]
      simp only [hany]
      rfl

/-- Counterexample for C7 as stated: a batch whose second record has
malformed field8 makes the CSV exporter abort the whole conversion — the
first (good) record's row is not emitted, contradicting the claim that all
other rows survive. -/
theorem field8_error_granularity_counterexample :
    convertThingSpeakDataToCSV [plainFeed, badJsonFeed] rnd0 =
      CsvResult.errorThrown := rfl

/-- Witness for C7: in the historical assembler a malformed record yields
null BP, while a plain record gets its computed (baseline) BP. -/
theorem field8_error_granularity_witness :
    (formatHistoricalData [badJsonFeed] rnd0).bp[0]? = some (none, none) ∧
    (formatHistoricalData [plainFeed] rnd0).bp[0]? = some (some 115, some 75) := by
  constructor
  · exact (field8_error_granularity [badJsonFeed] rnd0).1 0 badJsonFeed rfl rfl
  · have h := (field8_error_granularity [plainFeed] rnd0).2.1 0 plainFeed rfl rfl
    rw [h]
    have hbp : calculateBP (ecgOf plainFeed) (jsParseFloat plainFeed.field3)
        (jsParseFloat plainFeed.field4) (rnd0 0).1 (rnd0 0).2 = (115, 75) := by
      rw [calculateBP.eq_def, if_pos (Or.inl (by decide))]
      norm_num [rnd0]
    rw [hbp]

/-- C9 (amended): for every non-empty feed list in which no record's field8
is malformed JSON, the exporter emits the fixed header row followed by
exactly one row per record in the order received, with the timestamp cell
being the ISO rendering of the record's timestamp and every numeric field
that fails to parse rendered as the empty string. -/
theorem csv_structure (feeds : List Feed) (rnd : ℕ → ℚ × ℚ)
    (hne : feeds ≠ []) (hgood : ∀ f ∈ feeds, hasBadField8 f = false) :
    convertThingSpeakDataToCSV feeds rnd =
      CsvResult.okRows (csvHeader :: csvRows rnd 0 feeds) ∧
    (csvRows rnd 0 feeds).length = feeds.length ∧
    (∀ i : ℕ, (csvRows rnd 0 feeds)[i]? =
      feeds[i]?.map (fun f => csvRow f (rnd i))) ∧
    (∀ (f : Feed) (r : ℚ × ℚ), (csvRow f r)[0]? = some (Cell.iso f.created_at)) ∧
    (∀ (f : Feed) (r : ℚ × ℚ), jsParseFloat f.field1 = none →
      (csvRow f r)[1]? = some (Cell.str (""))) ∧
    (∀ (f : Feed) (r : ℚ × ℚ), jsParseInt f.field2 = none →
      (csvRow f r)[2]? = some (Cell.str (""))) ∧
    (∀ (f : Feed) (r : ℚ × ℚ), jsParseFloat f.field3 = none →
      (csvRow f r)[3]? = some (Cell.str (""))) ∧
    (∀ (f : Feed) (r : ℚ × ℚ), jsParseFloat f.field4 = none →
      (csvRow f r)[4]? = some (Cell.str (""))) ∧
    (∀ (f : Feed) (r : ℚ × ℚ), jsParseFloat f.field5 = none →
      (csvRow f r)[5]? = some (Cell.str (""))) ∧
    (∀ (f : Feed) (r : ℚ × ℚ), jsParseFloat f.field6 = none →
      (csvRow f r)[6]? = some (Cell.str (""))) ∧
    (∀ (f : Feed) (r : ℚ × ℚ), jsParseFloat f.field7 = none →
      (csvRow f r)[7]? = some (Cell.str (""))) := by
  have hmain : convertThingSpeakDataToCSV feeds rnd =
      CsvResult.okRows (csvHeader :: csvRows rnd 0 feeds) := by
    match feeds with
    | [] => exact absurd rfl hne
    | g :: gs =>
      rw [convertThingSpeakDataToCSV.eq_def]
      have hany : (g :: gs).any hasBadField8 = false := by
        simp only [List.any_eq_false]
        intro f hf
        simp [hgood f hf]
      simp only [hany]
      rfl
  refine ⟨hmain, csvRows_length rnd feeds 0, fun i => by
    simpa using csvRows_get? rnd feeds 0 i, fun f r => rfl,
    fun f r h => ?_, fun f r h => ?_, fun f r h => ?_, fun f r h => ?_,
    fun f r h => ?_, fun f r h => ?_, fun f r h => ?_⟩ <;>
    simp [csvRow, h]

/-- Counterexample for C9 as stated: a feed list containing a record with
malformed field8 makes the exporter throw — no header and no rows are
emitted for that list. -/
theorem csv_structure_counterexample :
    convertThingSpeakDataToCSV [badJsonFeed] rnd0 = CsvResult.errorThrown := rfl

/-- Witness for C9: exporting a plain record and a mixed record yields the
header plus two rows in order, and the mixed record's unparseable SpO2
field renders as the empty string. -/
theorem csv_structure_witness :
    convertThingSpeakDataToCSV [plainFeed, mixedFeed] rnd0 =
      CsvResult.okRows (csvHeader :: csvRows rnd0 0 [plainFeed, mixedFeed]) ∧
    (csvRows rnd0 0 [plainFeed, mixedFeed]).length = 2 ∧
    (csvRow mixedFeed (rnd0 1))[4]? = some (Cell.str ("")) := by
  have h := csv_structure [plainFeed, mixedFeed] rnd0 (by simp) (by decide)
  exact ⟨h.1, h.2.1, h.2.2.2.2.2.2.2.1 mixedFeed (rnd0 1) rfl⟩
